import Mathlib

/-!
Shallow embedding of the COMMON protocol relay server
(`src/internal/server.py`).

The server keeps one global dictionary `CONNECTED_AGENTS` mapping agent
identifiers to websocket connection objects.  We model the dictionary as an
association list in insertion order (Python dicts preserve insertion order),
connection objects as natural-number handles, and each wire frame as either
malformed JSON or a parsed JSON object restricted to the fields the server
reads.  Every outbound `websocket.send` is recorded as a `Send` value.
-/

namespace Relay

/-- The global `CONNECTED_AGENTS` dictionary: agent id to connection handle,
in insertion order. -/
abbrev Registry := List (String × Nat)

/-- Dictionary membership / indexing: first (unique) binding of `aid`. -/
def lookup : Registry → String → Option Nat
  | [], _ => none
  | (a, c) :: rest, aid => if a = aid then some c else lookup rest aid

/-- Python `agent_id in CONNECTED_AGENTS`. -/
def containsAgent (reg : Registry) (aid : String) : Bool :=
  (lookup reg aid).isSome

/-- Python `CONNECTED_AGENTS[agent_id] = websocket`: overwrite in place if the
key exists (keeping its position), otherwise append. -/
def setEntry : Registry → String → Nat → Registry
  | [], aid, conn => [(aid, conn)]
  | (a, c) :: rest, aid, conn =>
    if a = aid then (a, conn) :: rest else (a, c) :: setEntry rest aid conn

/-- Python `del CONNECTED_AGENTS[agent_id]`: drop the binding of `aid`. -/
def removeEntry : Registry → String → Registry
  | [], _ => []
  | (a, c) :: rest, aid =>
    if a = aid then removeEntry rest aid else (a, c) :: removeEntry rest aid

/-- `unregister_agent` (server.py lines 35-42): delete the entry iff the id is
currently a key of the dictionary. -/
def unregister_agent (reg : Registry) (aid : String) : Registry :=
  if containsAgent reg aid then removeEntry reg aid else reg

/-- `list(CONNECTED_AGENTS.keys())` (server.py line 135). -/
def snapshot (reg : Registry) : List String :=
  reg.map Prod.fst

/-- A parsed inbound JSON object, restricted to the fields the server reads
with `.get`; a missing field is `none`. -/
structure Msg where
  type : Option String
  agent_id : Option String
  auth_token : Option String
  sender_id : Option String
  receiver_id : Option String
  content : Option String
deriving Repr, DecidableEq

/-- One received wire frame: the raw text (needed because the server forwards
`message_str` verbatim) and its parse, `malformed` when `json.loads` raises. -/
inductive Frame where
  | malformed (raw : String)
  | wellFormed (raw : String) (msg : Msg)
deriving Repr, DecidableEq

/-- A payload the server writes to some connection. -/
inductive OutMsg where
  | serverInfo (content : String)
  | serverError (content : String)
  | listResponse (agents : List String) (requesterId : Option String)
  | verbatim (raw : String)
deriving Repr, DecidableEq

/-- One `websocket.send` call: target connection handle and payload. -/
structure Send where
  target : Nat
  payload : OutMsg
deriving Repr, DecidableEq

/-- Python truthiness of an optional string (`if not agent_id`, `all([...])`):
`None` and the empty string are falsy. -/
def pyTruthy : Option String → Bool
  | none => false
  | some s => s ≠ ""

/-- Python `str` of an optional string as interpolated by an f-string:
`None` prints as `None`. -/
def pyStr : Option String → String
  | none => "None"
  | some s => s

def errAgentIdMissing : String :=
  "Registration failed: \x27agent_id\x27 is missing."

def errInvalidToken : String :=
  "Authentication failed: Invalid token."

def errIdInUse (aid : String) : String :=
  "Agent ID \x27" ++ aid ++ "\x27 is already in use. Please choose a different ID."

def errFirstMessage : String :=
  "Initial message must be an \x27AGENT_REGISTER\x27 type with auth_token."

def errIncompleteDirect : String :=
  "Message missing sender_id, receiver_id, or content."

def errNotOnline (rid : String) : String :=
  "Agent \x27" ++ rid ++ "\x27 is not online. Message not delivered."

def errIncompleteBroadcast : String :=
  "Broadcast message missing sender_id or content."

def errUnknownType (t : Option String) : String :=
  "Unknown message type \x27" ++ pyStr t ++ "\x27."

def errInvalidJson : String :=
  "Invalid JSON format received."

def welcomeMsg (aid : String) : String :=
  "Welcome, agent " ++ aid ++ "! You are now online."

/-- How the handshake phase of `handle_agent_connection` ends: either the
session is `registered` under an id, or the handler is about to return
(`closed`), carrying the value of the local `agent_id` variable at that
point — the `finally` block consults exactly that variable. -/
inductive AuthStatus where
  | registered (aid : String)
  | closed (agentIdVar : Option String)
deriving Repr, DecidableEq

/-- Result of processing the first frame: updated registry, the sends made,
and how the phase ended. -/
structure AuthResult where
  registry : Registry
  sends : List Send
  status : AuthStatus
deriving Repr, DecidableEq

/-- Step 1 of `handle_agent_connection` (server.py lines 51-78): parse the
first frame and run registration.  A `json.loads` failure on the first frame
propagates to the outer `except Exception` handler (line 167), which only
logs: no `ServerError` is sent, and the local `agent_id` is still `None`. -/
def handleFirstFrame (secret : String) (reg : Registry) (conn : Nat) :
    Frame → AuthResult
  | Frame.malformed _ => ⟨reg, [], AuthStatus.closed none⟩
  | Frame.wellFormed _ m =>
    if m.type = some "AGENT_REGISTER" then
      match m.agent_id with
      | none =>
        ⟨reg, [⟨conn, OutMsg.serverError errAgentIdMissing⟩], AuthStatus.closed none⟩
      | some a =>
        if a = "" then
          ⟨reg, [⟨conn, OutMsg.serverError errAgentIdMissing⟩],
            AuthStatus.closed (some a)⟩
        else if m.auth_token ≠ some secret then
          ⟨reg, [⟨conn, OutMsg.serverError errInvalidToken⟩],
            AuthStatus.closed (some a)⟩
        else if containsAgent reg a then
          ⟨reg, [⟨conn, OutMsg.serverError (errIdInUse a)⟩],
            AuthStatus.closed (some a)⟩
        else
          ⟨setEntry reg a conn, [⟨conn, OutMsg.serverInfo (welcomeMsg a)⟩],
            AuthStatus.registered a⟩
    else
      ⟨reg, [⟨conn, OutMsg.serverError errFirstMessage⟩], AuthStatus.closed none⟩

/-- The `finally` block of `handle_agent_connection` (lines 169-171):
`if agent_id: await unregister_agent(agent_id)` — runs whenever the local
`agent_id` variable is truthy, registered or not. -/
def runFinally (reg : Registry) : Option String → Registry
  | none => reg
  | some a => if a = "" then reg else unregister_agent reg a

/-- A connection whose handler returns right after the handshake phase (every
rejection path, and a registered session whose transport then closes): the
handshake result followed by the `finally` block. -/
def authAndClose (secret : String) (reg : Registry) (conn : Nat) (f : Frame) :
    Registry × List Send :=
  let r := handleFirstFrame secret reg conn f
  match r.status with
  | AuthStatus.closed v => (runFinally r.registry v, r.sends)
  | AuthStatus.registered a => (runFinally r.registry (some a), r.sends)

/-- The per-recipient broadcast loop (server.py lines 124-130): iterate over
the dictionary, skip the sender, and a failing `send` (the oracle `fails`)
is caught by the inner `try/except` and never aborts the loop. -/
def broadcastLoop (fails : Nat → Bool) : Registry → String → String → List Send
  | [], _, _ => []
  | (a, c) :: rest, s, raw =>
    if a ≠ s then
      if fails c then broadcastLoop fails rest s raw
      else ⟨c, OutMsg.verbatim raw⟩ :: broadcastLoop fails rest s raw
    else broadcastLoop fails rest s raw

/-- One iteration of the registered-session message loop (server.py lines
81-161): returns the registry afterwards (the loop body never mutates it)
and the sends made, in order.  `fails` is the send-failure oracle consulted
only where the code catches per-send errors, i.e. the broadcast loop. -/
def routeMessage (fails : Nat → Bool) (reg : Registry) (conn : Nat) :
    Frame → Registry × List Send
  | Frame.malformed _ =>
    (reg, [⟨conn, OutMsg.serverError errInvalidJson⟩])
  | Frame.wellFormed raw m =>
    if m.type = some "AGENT_MESSAGE" then
      match m.sender_id, m.receiver_id, m.content with
      | some s, some rid, some c =>
        if s = "" ∨ rid = "" ∨ c = "" then
          (reg, [⟨conn, OutMsg.serverError errIncompleteDirect⟩])
        else
          match lookup reg rid with
          | some rconn => (reg, [⟨rconn, OutMsg.verbatim raw⟩])
          | none => (reg, [⟨conn, OutMsg.serverError (errNotOnline rid)⟩])
      | _, _, _ =>
        (reg, [⟨conn, OutMsg.serverError errIncompleteDirect⟩])
    else if m.type = some "BROADCAST_MESSAGE" then
      match m.sender_id, m.content with
      | some s, some c =>
        if s = "" ∨ c = "" then
          (reg, [⟨conn, OutMsg.serverError errIncompleteBroadcast⟩])
        else
          (reg, broadcastLoop fails reg s raw)
      | _, _ =>
        (reg, [⟨conn, OutMsg.serverError errIncompleteBroadcast⟩])
    else if m.type = some "LIST_AGENTS_REQUEST" then
      (reg, [⟨conn, OutMsg.listResponse (snapshot reg) m.sender_id⟩])
    else
      (reg, [⟨conn, OutMsg.serverError (errUnknownType m.type)⟩])

/-- The whole registered-session receive loop over a list of inbound frames:
each frame is handled by `routeMessage` and the loop continues with the next
frame. -/
def sessionLoop (fails : Nat → Bool) (conn : Nat) :
    Registry → List Frame → Registry × List Send
  | reg, [] => (reg, [])
  | reg, f :: rest =>
    let step := routeMessage fails reg conn f
    let next := sessionLoop fails conn step.1 rest
    (next.1, step.2 ++ next.2)

/-! ### Registry helper lemmas -/

theorem lookup_removeEntry_self (reg : Registry) (a : String) :
    lookup (removeEntry reg a) a = none := by
  induction reg with
  | nil => rfl
  | cons e rest ih =>
    obtain ⟨b, c⟩ := e
    by_cases h : b = a
    · simp [removeEntry, h, ih]
    · simp [removeEntry, lookup, h, ih]

theorem containsAgent_removeEntry_self (reg : Registry) (a : String) :
    containsAgent (removeEntry reg a) a = false := by
  simp [containsAgent, lookup_removeEntry_self]

/-! ### Claims -/

/-- Claim C1, code bug.  A rejected registration attempt naming an agent id
that is already registered (here: a third connection registering as `bob`
with the correct secret while `bob` is online on handle 1) is answered with
the expected `ServerError`, but the `finally` block then runs
`unregister_agent` on the local `agent_id` variable — which was assigned
before validation — and removes the ORIGINAL agent's registry entry:
`lookup` of `bob` afterwards returns `none`, not handle 1. -/
theorem C1_rejected_duplicate_register_removes_existing_entry :
    (authAndClose "super_secret_key_123" [("bob", 1)] 3
        (Frame.wellFormed "r"
          ⟨some "AGENT_REGISTER", some "bob", some "super_secret_key_123",
            none, none, none⟩)).2
      = [⟨3, OutMsg.serverError (errIdInUse "bob")⟩]
    ∧ lookup (authAndClose "super_secret_key_123" [("bob", 1)] 3
        (Frame.wellFormed "r"
          ⟨some "AGENT_REGISTER", some "bob", some "super_secret_key_123",
            none, none, none⟩)).1 "bob" = none := by
  decide

/-- Claim C2, counterexample.  A malformed first frame does NOT elicit a
`ServerError`: the `json.loads` failure escapes to the outer
`except Exception` handler, which only logs, so the session closes having
sent nothing. -/
theorem C2_counterexample_malformed_first_frame_sends_nothing :
    (handleFirstFrame "super_secret_key_123" [] 1 (Frame.malformed "oops")).sends = []
    ∧ (handleFirstFrame "super_secret_key_123" [] 1 (Frame.malformed "oops")).status
        = AuthStatus.closed none := by
  decide

/-- Claim C2, amended.  A well-formed first message of any type other than
`Register` is answered with a `ServerError` before the session closes, with
no registry change; a malformed first frame closes the session without any
reply, also with no registry change. -/
theorem C2_first_frame_rejection (secret : String) (reg : Registry)
    (conn : Nat) (raw : String) (m : Msg)
    (hm : m.type ≠ some "AGENT_REGISTER") :
    ((handleFirstFrame secret reg conn (Frame.wellFormed raw m)).sends
        = [⟨conn, OutMsg.serverError errFirstMessage⟩]
      ∧ (handleFirstFrame secret reg conn (Frame.wellFormed raw m)).status
        = AuthStatus.closed none
      ∧ (handleFirstFrame secret reg conn (Frame.wellFormed raw m)).registry = reg)
    ∧ ∀ raw2 : String,
      (handleFirstFrame secret reg conn (Frame.malformed raw2)).sends = []
      ∧ (handleFirstFrame secret reg conn (Frame.malformed raw2)).status
        = AuthStatus.closed none
      ∧ (handleFirstFrame secret reg conn (Frame.malformed raw2)).registry = reg := by
  constructor
  · simp [handleFirstFrame, hm]
  · intro raw2
    simp [handleFirstFrame]

/-- Witness for `C2_first_frame_rejection` at a concrete input. -/
theorem C2_first_frame_rejection_witness :
    (handleFirstFrame "k" [] 1
        (Frame.wellFormed "x" ⟨some "PING", none, none, none, none, none⟩)).sends
      = [⟨1, OutMsg.serverError errFirstMessage⟩] :=
  ((C2_first_frame_rejection "k" [] 1 "x"
      ⟨some "PING", none, none, none, none, none⟩ (by decide)).1).1

/-- Claim C3, code bug.  Validation order (missing id, then token, then
collision) matches the claim, but step (2) is not registry-neutral: a
registration carrying an already-registered `agent_id` (`bob`, online on
handle 1) with a wrong token is rejected with the invalid-token
`ServerError`, and the `finally` block then deletes `bob`'s existing entry—
the registry changes from `[(bob, 1)]` to `[]`. -/
theorem C3_invalid_token_rejection_changes_registry :
    (authAndClose "super_secret_key_123" [("bob", 1)] 3
        (Frame.wellFormed "r"
          ⟨some "AGENT_REGISTER", some "bob", some "wrong_token",
            none, none, none⟩)).2
      = [⟨3, OutMsg.serverError errInvalidToken⟩]
    ∧ (authAndClose "super_secret_key_123" [("bob", 1)] 3
        (Frame.wellFormed "r"
          ⟨some "AGENT_REGISTER", some "bob", some "wrong_token",
            none, none, none⟩)).1 = [] := by
  decide

/-- Claim C8: `unregister_agent` is idempotent — a second call for the same
identifier changes nothing — and a call for an absent identifier raises no
error and leaves the registry unchanged. -/
theorem C8_unregister_idempotent (reg : Registry) (a : String) :
    unregister_agent (unregister_agent reg a) a = unregister_agent reg a
    ∧ (lookup reg a = none → unregister_agent reg a = reg) := by
  constructor
  · by_cases h : containsAgent reg a
    · simp [unregister_agent, h, containsAgent_removeEntry_self]
    · simp [unregister_agent, h]
  · intro h
    simp [unregister_agent, containsAgent, h]

/-- Witness for `C8_unregister_idempotent` at a concrete registry. -/
theorem C8_unregister_idempotent_witness :
    unregister_agent (unregister_agent [("y", 2)] "x") "x"
      = unregister_agent [("y", 2)] "x"
    ∧ unregister_agent [("y", 2)] "x" = [("y", 2)] :=
  ⟨(C8_unregister_idempotent [("y", 2)] "x").1,
    (C8_unregister_idempotent [("y", 2)] "x").2 (by decide)⟩

theorem lookup_isSome_iff_mem_snapshot (reg : Registry) (a : String) :
    (lookup reg a).isSome = true ↔ a ∈ snapshot reg := by
  induction reg with
  | nil => simp [lookup, snapshot]
  | cons e rest ih =>
    obtain ⟨b, c⟩ := e
    rcases eq_or_ne a b with h | h
    · subst h
      simp [lookup, snapshot]
    · simp [lookup, snapshot, h, h.symm, ih]

/-- Claim C4: routing of a `Direct` (`AGENT_MESSAGE`) envelope from a
registered session.  If any of sender id, receiver id or content is missing
or empty (Python falsy), exactly one `ServerError` goes back to the sender
and nothing is forwarded; otherwise, if the receiver is registered the
original wire text is forwarded verbatim to the receiver's connection and
the sender gets nothing; if the receiver is absent, exactly one
`ServerError` goes back to the sender and no connection receives the
message.  The registry is unchanged in every case. -/
theorem C4_direct_message_routing (fails : Nat → Bool) (reg : Registry)
    (conn : Nat) (raw : String) (m : Msg)
    (hm : m.type = some "AGENT_MESSAGE") :
    ((pyTruthy m.sender_id && pyTruthy m.receiver_id && pyTruthy m.content) = false →
      routeMessage fails reg conn (Frame.wellFormed raw m)
        = (reg, [⟨conn, OutMsg.serverError errIncompleteDirect⟩]))
    ∧ (∀ rid rconn, m.receiver_id = some rid → rid ≠ "" →
        pyTruthy m.sender_id = true → pyTruthy m.content = true →
        lookup reg rid = some rconn →
        routeMessage fails reg conn (Frame.wellFormed raw m)
          = (reg, [⟨rconn, OutMsg.verbatim raw⟩]))
    ∧ (∀ rid, m.receiver_id = some rid → rid ≠ "" →
        pyTruthy m.sender_id = true → pyTruthy m.content = true →
        lookup reg rid = none →
        routeMessage fails reg conn (Frame.wellFormed raw m)
          = (reg, [⟨conn, OutMsg.serverError (errNotOnline rid)⟩])) := by
  refine ⟨?_, ?_, ?_⟩
  · intro hn
    cases hsid : m.sender_id with
    | none => simp [routeMessage, hm, hsid]
    | some s =>
      cases hrid : m.receiver_id with
      | none => simp [routeMessage, hm, hsid, hrid]
      | some rid =>
        cases hcon : m.content with
        | none => simp [routeMessage, hm, hsid, hrid, hcon]
        | some c =>
          rw [hsid, hrid, hcon] at hn
          simp [pyTruthy] at hn
          by_cases h1 : s = ""
          · simp [routeMessage, hm, hsid, hrid, hcon, h1]
          · by_cases h2 : rid = ""
            · simp [routeMessage, hm, hsid, hrid, hcon, h2]
            · have h3 : c = "" := hn h1 h2
              simp [routeMessage, hm, hsid, hrid, hcon, h3]
  · intro rid rconn hrid hne hs hc hl
    cases hsid : m.sender_id with
    | none => rw [hsid] at hs; simp [pyTruthy] at hs
    | some s =>
      cases hcon : m.content with
      | none => rw [hcon] at hc; simp [pyTruthy] at hc
      | some c =>
        rw [hsid] at hs
        rw [hcon] at hc
        simp [pyTruthy] at hs hc
        simp [routeMessage, hm, hsid, hrid, hcon, hs, hc, hne, hl]
  · intro rid hrid hne hs hc hl
    cases hsid : m.sender_id with
    | none => rw [hsid] at hs; simp [pyTruthy] at hs
    | some s =>
      cases hcon : m.content with
      | none => rw [hcon] at hc; simp [pyTruthy] at hc
      | some c =>
        rw [hsid] at hs
        rw [hcon] at hc
        simp [pyTruthy] at hs hc
        simp [routeMessage, hm, hsid, hrid, hcon, hs, hc, hne, hl]

/-- Witness for `C4_direct_message_routing` at concrete inputs: one empty
field yields the incomplete-message error; an online receiver gets the raw
frame; an offline receiver yields the not-online error to the sender. -/
theorem C4_direct_message_routing_witness :
    routeMessage (fun _ => false) [("alice", 1), ("bob", 2)] 1
        (Frame.wellFormed "RAW"
          ⟨some "AGENT_MESSAGE", none, none, some "alice", some "bob", none⟩)
      = ([("alice", 1), ("bob", 2)],
          [⟨1, OutMsg.serverError errIncompleteDirect⟩])
    ∧ routeMessage (fun _ => false) [("alice", 1), ("bob", 2)] 1
        (Frame.wellFormed "RAW"
          ⟨some "AGENT_MESSAGE", none, none, some "alice", some "bob", some "hi"⟩)
      = ([("alice", 1), ("bob", 2)], [⟨2, OutMsg.verbatim "RAW"⟩])
    ∧ routeMessage (fun _ => false) [("alice", 1)] 1
        (Frame.wellFormed "RAW"
          ⟨some "AGENT_MESSAGE", none, none, some "alice", some "carol", some "hi"⟩)
      = ([("alice", 1)], [⟨1, OutMsg.serverError (errNotOnline "carol")⟩]) :=
  ⟨(C4_direct_message_routing (fun _ => false) [("alice", 1), ("bob", 2)] 1 "RAW"
      ⟨some "AGENT_MESSAGE", none, none, some "alice", some "bob", none⟩ rfl).1
      (by decide),
    ((C4_direct_message_routing (fun _ => false) [("alice", 1), ("bob", 2)] 1 "RAW"
      ⟨some "AGENT_MESSAGE", none, none, some "alice", some "bob", some "hi"⟩ rfl).2).1
      "bob" 2 rfl (by decide) (by decide) (by decide) (by decide),
    ((C4_direct_message_routing (fun _ => false) [("alice", 1)] 1 "RAW"
      ⟨some "AGENT_MESSAGE", none, none, some "alice", some "carol", some "hi"⟩ rfl).2).2
      "carol" rfl (by decide) (by decide) (by decide) (by decide)⟩

/-- Claim C6: a `ListRequest` (`LIST_AGENTS_REQUEST`) from a registered
session is answered on the same connection with a single `ListResponse`
carrying the registry snapshot at processing time and the request's
`sender_id` as requester; under the registry's uniqueness invariant each
registered identifier appears exactly once in the snapshot and absent
identifiers appear zero times. -/
theorem C6_list_request_snapshot (fails : Nat → Bool) (reg : Registry)
    (conn : Nat) (raw : String) (m : Msg)
    (hm : m.type = some "LIST_AGENTS_REQUEST") :
    routeMessage fails reg conn (Frame.wellFormed raw m)
      = (reg, [⟨conn, OutMsg.listResponse (snapshot reg) m.sender_id⟩])
    ∧ ((snapshot reg).Nodup → ∀ a : String,
        (snapshot reg).count a = if (lookup reg a).isSome then 1 else 0) := by
  constructor
  · simp [routeMessage, hm]
  · intro hnd a
    by_cases h : (lookup reg a).isSome
    · rw [if_pos h]
      exact List.count_eq_one_of_mem hnd ((lookup_isSome_iff_mem_snapshot reg a).1 h)
    · rw [if_neg h]
      have hmem : a ∉ snapshot reg := fun hx =>
        h ((lookup_isSome_iff_mem_snapshot reg a).2 hx)
      simpa [List.count_eq_zero] using hmem

/-- Witness for `C6_list_request_snapshot` at a concrete registry of two
agents. -/
theorem C6_list_request_snapshot_witness :
    routeMessage (fun _ => false) [("alice", 1), ("bob", 2)] 2
        (Frame.wellFormed "RAW"
          ⟨some "LIST_AGENTS_REQUEST", none, none, some "bob", none, none⟩)
      = ([("alice", 1), ("bob", 2)],
          [⟨2, OutMsg.listResponse ["alice", "bob"] (some "bob")⟩])
    ∧ (snapshot [("alice", 1), ("bob", 2)]).count "alice" = 1 :=
  ⟨(C6_list_request_snapshot (fun _ => false) [("alice", 1), ("bob", 2)] 2 "RAW"
      ⟨some "LIST_AGENTS_REQUEST", none, none, some "bob", none, none⟩ rfl).1,
    by
      have h := (C6_list_request_snapshot (fun _ => false) [("alice", 1), ("bob", 2)] 2 "RAW"
        ⟨some "LIST_AGENTS_REQUEST", none, none, some "bob", none, none⟩ rfl).2
        (by decide) "alice"
      simpa using h⟩

/-- Claim C7: from a registered session, a malformed frame or a well-formed
message of unknown type is answered with exactly one `ServerError` to that
sender, the registry is unchanged, and the receive loop continues with the
remaining frames (the connection is not closed). -/
theorem C7_registered_protocol_errors (fails : Nat → Bool) (reg : Registry)
    (conn : Nat) (rest : List Frame) :
    (∀ raw : String,
      routeMessage fails reg conn (Frame.malformed raw)
        = (reg, [⟨conn, OutMsg.serverError errInvalidJson⟩])
      ∧ sessionLoop fails conn reg (Frame.malformed raw :: rest)
        = ((sessionLoop fails conn reg rest).1,
            ⟨conn, OutMsg.serverError errInvalidJson⟩
              :: (sessionLoop fails conn reg rest).2))
    ∧ (∀ (raw : String) (m : Msg),
        m.type ≠ some "AGENT_MESSAGE" → m.type ≠ some "BROADCAST_MESSAGE" →
        m.type ≠ some "LIST_AGENTS_REQUEST" →
        routeMessage fails reg conn (Frame.wellFormed raw m)
          = (reg, [⟨conn, OutMsg.serverError (errUnknownType m.type)⟩])
        ∧ sessionLoop fails conn reg (Frame.wellFormed raw m :: rest)
          = ((sessionLoop fails conn reg rest).1,
              ⟨conn, OutMsg.serverError (errUnknownType m.type)⟩
                :: (sessionLoop fails conn reg rest).2)) := by
  constructor
  · intro raw
    have hr : routeMessage fails reg conn (Frame.malformed raw)
        = (reg, [⟨conn, OutMsg.serverError errInvalidJson⟩]) := rfl
    exact ⟨hr, by simp [sessionLoop, hr]⟩
  · intro raw m h1 h2 h3
    have hr : routeMessage fails reg conn (Frame.wellFormed raw m)
        = (reg, [⟨conn, OutMsg.serverError (errUnknownType m.type)⟩]) := by
      simp [routeMessage, h1, h2, h3]
    exact ⟨hr, by simp [sessionLoop, hr]⟩

/-- Witness for `C7_registered_protocol_errors` at concrete inputs. -/
theorem C7_registered_protocol_errors_witness :
    routeMessage (fun _ => false) [("alice", 1)] 1 (Frame.malformed "oops")
      = ([("alice", 1)], [⟨1, OutMsg.serverError errInvalidJson⟩])
    ∧ routeMessage (fun _ => false) [("alice", 1)] 1
        (Frame.wellFormed "x" ⟨some "NOPE", none, none, none, none, none⟩)
      = ([("alice", 1)], [⟨1, OutMsg.serverError (errUnknownType (some "NOPE"))⟩]) :=
  ⟨((C7_registered_protocol_errors (fun _ => false) [("alice", 1)] 1 []).1 "oops").1,
    ((C7_registered_protocol_errors (fun _ => false) [("alice", 1)] 1 []).2 "x"
      ⟨some "NOPE", none, none, none, none, none⟩
      (by decide) (by decide) (by decide)).1⟩

/-- Claim C9: a self-addressed `Direct` envelope (receiver id equal to the
registered sender's own id) with non-empty content is not rejected: the raw
frame is forwarded verbatim back to the sender's own connection. -/
theorem C9_self_direct_delivered (fails : Nat → Bool) (reg : Registry)
    (conn : Nat) (raw : String) (m : Msg) (a : String)
    (hm : m.type = some "AGENT_MESSAGE") (hs : m.sender_id = some a)
    (hr : m.receiver_id = some a) (hc : pyTruthy m.content = true)
    (ha : a ≠ "") (hl : lookup reg a = some conn) :
    routeMessage fails reg conn (Frame.wellFormed raw m)
      = (reg, [⟨conn, OutMsg.verbatim raw⟩]) := by
  cases hcon : m.content with
  | none => rw [hcon] at hc; simp [pyTruthy] at hc
  | some c =>
    rw [hcon] at hc
    simp [pyTruthy] at hc
    simp [routeMessage, hm, hs, hr, hcon, ha, hc, hl]

/-- Witness for `C9_self_direct_delivered`: alice sends a direct message to
alice and receives the raw frame on her own connection. -/
theorem C9_self_direct_delivered_witness :
    routeMessage (fun _ => false) [("alice", 1)] 1
        (Frame.wellFormed "RAW"
          ⟨some "AGENT_MESSAGE", none, none, some "alice", some "alice", some "hi"⟩)
      = ([("alice", 1)], [⟨1, OutMsg.verbatim "RAW"⟩]) :=
  C9_self_direct_delivered (fun _ => false) [("alice", 1)] 1 "RAW"
    ⟨some "AGENT_MESSAGE", none, none, some "alice", some "alice", some "hi"⟩
    "alice" rfl rfl rfl (by decide) (by decide) (by decide)

/-- Claim C10: a `Register` (`AGENT_REGISTER`) envelope arriving on an
already-registered session falls through to the unknown-message-type branch:
one `ServerError` to the sender, registry unchanged, and the receive loop
continues — a session can never rebind its identity after the handshake. -/
theorem C10_reregister_is_unknown_type (fails : Nat → Bool) (reg : Registry)
    (conn : Nat) (rest : List Frame) (raw : String) (m : Msg)
    (hm : m.type = some "AGENT_REGISTER") :
    routeMessage fails reg conn (Frame.wellFormed raw m)
      = (reg, [⟨conn, OutMsg.serverError (errUnknownType (some "AGENT_REGISTER"))⟩])
    ∧ sessionLoop fails conn reg (Frame.wellFormed raw m :: rest)
      = ((sessionLoop fails conn reg rest).1,
          ⟨conn, OutMsg.serverError (errUnknownType (some "AGENT_REGISTER"))⟩
            :: (sessionLoop fails conn reg rest).2) := by
  have hr : routeMessage fails reg conn (Frame.wellFormed raw m)
      = (reg, [⟨conn, OutMsg.serverError (errUnknownType (some "AGENT_REGISTER"))⟩]) := by
    simp [routeMessage, hm]
  exact ⟨hr, by simp [sessionLoop, hr]⟩

/-- Witness for `C10_reregister_is_unknown_type` at a concrete input. -/
theorem C10_reregister_is_unknown_type_witness :
    routeMessage (fun _ => false) [("alice", 1)] 1
        (Frame.wellFormed "RAW"
          ⟨some "AGENT_REGISTER", some "alice", some "k", some "alice", none, none⟩)
      = ([("alice", 1)],
          [⟨1, OutMsg.serverError (errUnknownType (some "AGENT_REGISTER"))⟩]) :=
  (C10_reregister_is_unknown_type (fun _ => false) [("alice", 1)] 1 [] "RAW"
    ⟨some "AGENT_REGISTER", some "alice", some "k", some "alice", none, none⟩ rfl).1

/-! ### Broadcast helper lemmas -/

theorem broadcastLoop_eq (fails : Nat → Bool) (reg : Registry) (s raw : String) :
    broadcastLoop fails reg s raw
      = (reg.filter (fun e => e.1 != s && !(fails e.2))).map
          (fun e => Send.mk e.2 (OutMsg.verbatim raw)) := by
  induction reg with
  | nil => rfl
  | cons e rest ih =>
    obtain ⟨a, c⟩ := e
    by_cases h : a = s
    · simp [broadcastLoop, h, ih]
    · by_cases hf : fails c
      · simp [broadcastLoop, h, hf, ih]
      · simp [broadcastLoop, h, hf, ih]

theorem routeMessage_broadcast_eq (fails : Nat → Bool) (reg : Registry)
    (conn : Nat) (raw : String) (m : Msg) (s : String)
    (hm : m.type = some "BROADCAST_MESSAGE") (hs : m.sender_id = some s)
    (hne : s ≠ "") (hc : pyTruthy m.content = true) :
    routeMessage fails reg conn (Frame.wellFormed raw m)
      = (reg, broadcastLoop fails reg s raw) := by
  cases hcon : m.content with
  | none => rw [hcon] at hc; simp [pyTruthy] at hc
  | some c =>
    rw [hcon] at hc
    simp [pyTruthy] at hc
    simp [routeMessage, hm, hs, hcon, hne, hc]

theorem lookup_mem (reg : Registry) (a : String) (c : Nat)
    (h : lookup reg a = some c) : (a, c) ∈ reg := by
  induction reg with
  | nil => simp [lookup] at h
  | cons e rest ih =>
    obtain ⟨b, d⟩ := e
    by_cases hb : b = a
    · subst hb
      simp [lookup] at h
      subst h
      exact List.mem_cons_self _ _
    · rw [lookup, if_neg hb] at h
      exact List.mem_cons_of_mem _ (ih h)

/-- Claim C5: a `Broadcast` (`BROADCAST_MESSAGE`) envelope with non-empty
sender id and content is forwarded verbatim to every registered agent other
than the sender: the send list is exactly the all-but-sender slice of the
registry (in registry order), a per-recipient send failure removes only that
recipient from the deliveries, under the registry invariants each other
agent is hit exactly once and the sender's own connection never is, and a
missing/empty sender id or content instead yields exactly one `ServerError`
to the sender with nothing forwarded. -/
theorem C5_broadcast_delivery (fails : Nat → Bool) (reg : Registry)
    (conn : Nat) (raw : String) (m : Msg) (s : String)
    (hm : m.type = some "BROADCAST_MESSAGE") (hs : m.sender_id = some s)
    (hne : s ≠ "") (hc : pyTruthy m.content = true) :
    (routeMessage fails reg conn (Frame.wellFormed raw m)
      = (reg, (reg.filter (fun e => e.1 != s && !(fails e.2))).map
          (fun e => Send.mk e.2 (OutMsg.verbatim raw))))
    ∧ (routeMessage (fun _ => false) reg conn (Frame.wellFormed raw m)
      = (reg, (reg.filter (fun e => e.1 != s)).map
          (fun e => Send.mk e.2 (OutMsg.verbatim raw))))
    ∧ ((reg.map Prod.snd).Nodup →
        ∀ e ∈ reg, e.1 ≠ s → fails e.2 = false →
        (routeMessage fails reg conn (Frame.wellFormed raw m)).2.count
          (Send.mk e.2 (OutMsg.verbatim raw)) = 1)
    ∧ ((reg.map Prod.snd).Nodup → ∀ sc, lookup reg s = some sc →
        ∀ t ∈ (routeMessage fails reg conn (Frame.wellFormed raw m)).2,
          t.target ≠ sc)
    ∧ (∀ (raw2 : String) (m2 : Msg), m2.type = some "BROADCAST_MESSAGE" →
        (pyTruthy m2.sender_id && pyTruthy m2.content) = false →
        routeMessage fails reg conn (Frame.wellFormed raw2 m2)
          = (reg, [⟨conn, OutMsg.serverError errIncompleteBroadcast⟩])) := by
  have hroute := routeMessage_broadcast_eq fails reg conn raw m s hm hs hne hc
  have hsends : (routeMessage fails reg conn (Frame.wellFormed raw m)).2
      = (reg.filter (fun e => e.1 != s && !(fails e.2))).map
          (fun e => Send.mk e.2 (OutMsg.verbatim raw)) := by
    rw [hroute, broadcastLoop_eq]
  refine ⟨?_, ?_, ?_, ?_, ?_⟩
  · rw [hroute, broadcastLoop_eq]
  · have hroute0 := routeMessage_broadcast_eq (fun _ => false) reg conn raw m s hm hs hne hc
    rw [hroute0, broadcastLoop_eq]
    simp
  · intro hnd e he hes hef
    rw [hsends]
    have hemem : e ∈ reg.filter (fun x => x.1 != s && !(fails x.2)) :=
      List.mem_filter.2 ⟨he, by simp [hes, hef]⟩
    have hsub : ((reg.filter (fun x => x.1 != s && !(fails x.2))).map Prod.snd).Sublist
        (reg.map Prod.snd) := (List.filter_sublist reg).map Prod.snd
    have hnd2 : ((reg.filter (fun x => x.1 != s && !(fails x.2))).map Prod.snd).Nodup :=
      hnd.sublist hsub
    have hinj : Function.Injective (fun c => Send.mk c (OutMsg.verbatim raw)) := by
      intro x y hxy
      simpa using congrArg Send.target hxy
    have hmapmap : (reg.filter (fun x => x.1 != s && !(fails x.2))).map
        (fun e => Send.mk e.2 (OutMsg.verbatim raw))
        = ((reg.filter (fun x => x.1 != s && !(fails x.2))).map Prod.snd).map
            (fun c => Send.mk c (OutMsg.verbatim raw)) := by
      rw [List.map_map]
      rfl
    rw [hmapmap]
    rw [List.count_map_of_injective _ _ hinj]
    exact List.count_eq_one_of_mem hnd2 (List.mem_map_of_mem Prod.snd hemem)
  · intro hnd sc hsc t ht hts
    rw [hsends] at ht
    rcases List.mem_map.1 ht with ⟨e, hef, het⟩
    rcases List.mem_filter.1 hef with ⟨hereg, hep⟩
    have hes : e.1 ≠ s := by
      simp only [Bool.and_eq_true] at hep
      exact bne_iff_ne.1 hep.1
    have hesnd : e.2 = sc := by
      have : t.target = e.2 := by rw [← het]
      rw [← this, hts]
    have hmem2 : (s, sc) ∈ reg := lookup_mem reg s sc hsc
    have : e = (s, sc) := List.inj_on_of_nodup_map hnd hereg hmem2 hesnd
    exact hes (by rw [this])
  · intro raw2 m2 hm2 hn
    cases hsid : m2.sender_id with
    | none => simp [routeMessage, hm2, hsid]
    | some s2 =>
      cases hcon : m2.content with
      | none => simp [routeMessage, hm2, hsid, hcon]
      | some c2 =>
        rw [hsid, hcon] at hn
        simp [pyTruthy] at hn
        by_cases h1 : s2 = ""
        · simp [routeMessage, hm2, hsid, hcon, h1]
        · have h2 : c2 = "" := hn h1
          simp [routeMessage, hm2, hsid, hcon, h2]

/-- Witness for `C5_broadcast_delivery`: alice broadcasts to a registry of
three agents; bob and carol each receive the raw frame once, alice does not,
and when the send to bob fails carol still receives it. -/
theorem C5_broadcast_delivery_witness :
    routeMessage (fun _ => false) [("alice", 1), ("bob", 2), ("carol", 3)] 1
        (Frame.wellFormed "RAW"
          ⟨some "BROADCAST_MESSAGE", none, none, some "alice", none, some "hi"⟩)
      = ([("alice", 1), ("bob", 2), ("carol", 3)],
          [⟨2, OutMsg.verbatim "RAW"⟩, ⟨3, OutMsg.verbatim "RAW"⟩])
    ∧ routeMessage (fun c => c = 2) [("alice", 1), ("bob", 2), ("carol", 3)] 1
        (Frame.wellFormed "RAW"
          ⟨some "BROADCAST_MESSAGE", none, none, some "alice", none, some "hi"⟩)
      = ([("alice", 1), ("bob", 2), ("carol", 3)], [⟨3, OutMsg.verbatim "RAW"⟩]) := by
  constructor
  · have h := (C5_broadcast_delivery (fun _ => false)
      [("alice", 1), ("bob", 2), ("carol", 3)] 1 "RAW"
      ⟨some "BROADCAST_MESSAGE", none, none, some "alice", none, some "hi"⟩
      "alice" rfl rfl (by decide) (by decide)).1
    rw [h]
    decide
  · have h := (C5_broadcast_delivery (fun c => decide (c = 2))
      [("alice", 1), ("bob", 2), ("carol", 3)] 1 "RAW"
      ⟨some "BROADCAST_MESSAGE", none, none, some "alice", none, some "hi"⟩
      "alice" rfl rfl (by decide) (by decide)).1
    rw [h]
    decide

end Relay
